import Mathlib

/-!
# Verification of the write-commit pipeline and compaction resume logic

Shallow embedding of `DBImpl::WriteImpl` (group commit), `DBImpl::WriteToWAL`
(WAL append bookkeeping) and the resume prologue of
`CompactionJob::ProcessKeyValueCompaction`, with theorems checking the
natural-language specification against the embedded code.
-/

namespace RocksDBModel

/-- Status codes, mirroring `rocksdb::Status` as used by the modelled code. -/
inductive Status where
  | ok : Status
  | invalidArgument : String → Status
  | notSupported : String → Status
  | ioError : String → Status
  | notFound : Status
  | busy : String → Status
  deriving Repr, DecidableEq

/-- `Status::ok()`. -/
def Status.isOk : Status → Bool
  | .ok => true
  | _ => false

/-- `Status::IsNotFound()`. -/
def Status.isNotFound : Status → Bool
  | .notFound => true
  | _ => false

/-- Whether a status is an `InvalidArgument` status. -/
def Status.isInvalidArgument : Status → Bool
  | .invalidArgument _ => true
  | _ => false

/-! ## WriteToWAL (`DBImpl::WriteToWAL`, experiment_b)

The function appends a merged batch to the current log writer.  We embed the
state it touches (`wals_total_size_`, the per-WAL-number size record,
`wal_empty_`, `cur_wal_number_` and the `wal_write_mutex_`), treat the IO
results of `MaybeAddUserDefinedTimestampSizeRecord` and `AddRecord` as oracle
inputs, and return the final state together with the returned `IOStatus` and
the value stored through `*log_size` / `*wal_used` (if the corresponding
pointer paths were reached). -/

/-- The mutable state touched by `DBImpl::WriteToWAL`. -/
structure WalState where
  walsTotalSize : Nat
  walFileNumberSize : Nat
  walEmpty : Bool
  curWalNumber : Nat
  mutexHeld : Bool
  deriving Repr, DecidableEq

/-- Result of one call to `WriteToWAL`: the status the function returns, the
value written through `*log_size` (none if the early checksum return fired),
the value written through `*wal_used` (none if that line was not reached), and
the resulting state. -/
structure WalCallResult where
  status : Status
  logSize : Option Nat
  walUsed : Option Nat
  state : WalState
  deriving Repr, DecidableEq

/-- Embedding of `DBImpl::WriteToWAL`.  `entrySize` is
`WriteBatchInternal::Contents(&merged_batch).size()`, `checksumOk` the result
of `merged_batch.VerifyChecksum()`, `tsRecordResult` the `IOStatus` of
`log_writer->MaybeAddUserDefinedTimestampSizeRecord(...)` and
`addRecordResult` that of `log_writer->AddRecord(...)`.  `manualWalFlush` and
`twoWriteQueues` are the engine flags read by the function. -/
def writeToWAL (manualWalFlush twoWriteQueues : Bool) (entrySize : Nat)
    (checksumOk : Bool) (tsRecordResult addRecordResult : Status)
    (st : WalState) : WalCallResult :=
  if !checksumOk then
    { status := Status.ioError "checksum", logSize := none, walUsed := none,
      state := st }
  else
    -- *log_size = log_entry.size();
    let logSize := entrySize
    let needsLocking := manualWalFlush && !twoWriteQueues
    let st := if needsLocking then { st with mutexHeld := true } else st
    if !tsRecordResult.isOk then
      -- early return: the unlock below is never executed
      { status := tsRecordResult, logSize := some logSize, walUsed := none,
        state := st }
    else
      let ioS := addRecordResult
      let st := if needsLocking then { st with mutexHeld := false } else st
      let walUsed := st.curWalNumber
      let st :=
        { st with
          walsTotalSize := st.walsTotalSize + entrySize
          walFileNumberSize := st.walFileNumberSize + logSize
          walEmpty := false }
      { status := ioS, logSize := some logSize, walUsed := some walUsed,
        state := st }

/-! ## Compaction resume (`CompactionJob::ProcessKeyValueCompaction`,
experiment_c)

The prologue calls `MaybeResumeSubcompactionProgressOnInputIterator`; if it
reports `NotFound` the input iterator is sought to the first record, if it
fails with any other status the subcompaction records that status and stops,
and otherwise the iterator is already positioned at the saved checkpoint.  The
input run is modelled as a sorted list of keys; the iterator position is the
suffix of records still to be emitted. -/

/-- Outcome of `MaybeResumeSubcompactionProgressOnInputIterator`: a saved
progress key was found (and the iterator was sought to it), or the call
returned a status — `NotFound` meaning no checkpoint exists, anything else a
genuine failure. -/
inductive ResumeOutcome where
  | found : Nat → ResumeOutcome
  | err : Status → ResumeOutcome
  deriving Repr, DecidableEq

/-- Modelled from the spec: `MaybeResumeSubcompactionProgressOnInputIterator`
is not part of the provided sources; per the spec, `Resume(checkpoint)` with
a saved progress key seeks the input iterator to the first record whose key
is greater or equal to that key.  On a sorted run this is `dropWhile`. -/
def resumeSeek (k : Nat) (input : List Nat) : List Nat :=
  input.dropWhile (fun x => decide (x < k))

/-- The part of a subcompaction's result the resume claim is about: the final
status recorded in `sub_compact->status` on the early-return path (`ok`
otherwise) and the stream of records emitted from the iterator position. -/
structure SubcompactionRun where
  status : Status
  emitted : List Nat
  deriving Repr, DecidableEq

/-- Embedding of the resume prologue of
`CompactionJob::ProcessKeyValueCompaction`: dispatch on the status of the
resume call exactly as the source does (NotFound seeks to the first record,
any other failure records the status and returns before processing any
record), with the positioned iterator suffix as the emitted stream. -/
def processResumePrologue (r : ResumeOutcome) (input : List Nat) :
    SubcompactionRun :=
  match r with
  | .found k => { status := Status.ok, emitted := resumeSeek k input }
  | .err s =>
      if s.isNotFound then { status := Status.ok, emitted := input }
      else { status := s, emitted := [] }

/-! ## Group commit (`DBImpl::WriteImpl`, experiment_a)

We embed the leader path of `WriteImpl` for a formed write group: the stats /
`seq_inc` computation (lines 301-363), the WAL append and sequence reservation
(lines 394-420), the WAL sync block (lines 422-453), the pre-release callback
loop (lines 455-486), the memtable application (lines 488-521), the WBWI
ingestion (lines 545-571) and the exit block with the `SetLastSequence`
publish (lines 573-606).  External calls (`PreprocessWrite`,
`WriteGroupToWAL`, `InsertInto`, ...) are represented by oracle statuses in a
`CommitEnv`; the concurrency of the parallel path is not modelled — the model
records whether `LaunchParallelMemTableWriters` is invoked and which writers'
batches are inserted. -/

/-- The pieces of `WriteBatch` state read by the modelled code. -/
structure WriteBatchM where
  count : Nat
  byteSize : Nat
  hasMerge : Bool
  deriving Repr, DecidableEq

/-- One member of a write group: its batch, its `disable_memtable` flag and
`batch_cnt`, its validation callback (presence plus the status the callback
returns when run by `CheckCallback`), its pre-release callback (presence plus
returned status) and its post-memtable callback (presence plus returned
status). -/
structure Writer where
  batch : WriteBatchM
  disableMemtable : Bool
  batchCnt : Nat
  hasCallback : Bool
  callbackStatus : Status
  hasPreReleaseCallback : Bool
  preReleaseResult : Status
  hasPostMemtableCallback : Bool
  postMemtableResult : Status
  deriving Repr, DecidableEq

/-- Modelled from the spec: `WriteThread::Writer::CheckCallback` is not part
of the provided sources; it runs the writer's validation callback (if any)
and reports whether it passed. -/
def Writer.checkCallback (w : Writer) : Bool :=
  !w.hasCallback || w.callbackStatus.isOk

/-- Modelled from the spec: `WriteThread::Writer::CallbackFailed` is not part
of the provided sources; a writer's callback failed when it has one and it
returned a non-OK status. -/
def Writer.callbackFailed (w : Writer) : Bool :=
  w.hasCallback && !w.callbackStatus.isOk

/-- Modelled from the spec: `WriteThread::Writer::ShouldWriteToMemtable` is
not part of the provided sources; per the spec, memtable application covers
writers that pass validation and are not WAL-only (`disable_memtable`). -/
def Writer.shouldWriteToMemtable (w : Writer) : Bool :=
  !w.callbackFailed && !w.disableMemtable

/-- The accumulator of the leader's statistics loop (lines 301-321):
`parallel`, `total_count`, `valid_batches`, `total_byte_size` and
`pre_release_callback_cnt`. -/
structure GroupStats where
  parallel : Bool
  totalCount : Nat
  validBatches : Nat
  totalByteSize : Nat
  preReleaseCallbackCnt : Nat
  deriving Repr, DecidableEq

/-- One iteration of the statistics loop over a writer. -/
def groupStatsStep (st : GroupStats) (w : Writer) : GroupStats :=
  if w.checkCallback then
    let st := { st with validBatches := st.validBatches + w.batchCnt }
    let st :=
      if w.shouldWriteToMemtable then
        { st with
          totalCount := st.totalCount + w.batch.count
          totalByteSize := st.totalByteSize + w.batch.byteSize
          parallel := st.parallel && !w.batch.hasMerge }
      else st
    if w.hasPreReleaseCallback then
      { st with preReleaseCallbackCnt := st.preReleaseCallbackCnt + 1 }
    else st
  else st

/-- The statistics loop, started from
`parallel = allow_concurrent_memtable_write && write_group.size > 1`. -/
def computeGroupStats (allowConcurrentMemtableWrite : Bool)
    (group : List Writer) : GroupStats :=
  group.foldl groupStatsStep
    { parallel := allowConcurrentMemtableWrite && decide (group.length > 1)
      totalCount := 0, validBatches := 0, totalByteSize := 0
      preReleaseCallbackCnt := 0 }

/-- Result of the pre-release callback loop (lines 455-486): the status after
the loop, the group positions whose pre-release callback was invoked (in
invocation order) and the `(position, sequence)` assignments performed by
`writer->sequence = next_sequence`. -/
structure PreReleaseOut where
  status : Status
  invoked : List Nat
  assigned : List (Nat × Nat)
  deriving Repr, DecidableEq

/-- The pre-release callback loop: writers with a failed validation callback
are skipped; every other writer is assigned the running `next_sequence`; its
pre-release callback (if present) is invoked and a non-OK result breaks out of
the loop; otherwise `next_sequence` advances by `batch_cnt` in per-batch mode
and by the batch's key count for memtable-bound writers in per-key mode. -/
def preReleaseLoop (seqPerBatch : Bool) :
    List Writer → Nat → Nat → PreReleaseOut
  | [], _, _ => { status := Status.ok, invoked := [], assigned := [] }
  | w :: rest, p, nextSeq =>
    if w.callbackFailed then
      preReleaseLoop seqPerBatch rest (p + 1) nextSeq
    else
      let invokedHere := w.hasPreReleaseCallback
      let r := if invokedHere then w.preReleaseResult else Status.ok
      if invokedHere && !r.isOk then
        { status := r, invoked := [p], assigned := [(p, nextSeq)] }
      else
        let nextSeq' :=
          if seqPerBatch then nextSeq + w.batchCnt
          else if w.shouldWriteToMemtable then nextSeq + w.batch.count
          else nextSeq
        let o := preReleaseLoop seqPerBatch rest (p + 1) nextSeq'
        { status := o.status
          invoked := (if invokedHere then [p] else []) ++ o.invoked
          assigned := (p, nextSeq) :: o.assigned }

/-- Engine-wide immutable configuration read by the modelled commit path. -/
structure EngineConfig where
  twoWriteQueues : Bool
  seqPerBatch : Bool
  allowConcurrentMemtableWrite : Bool
  deriving Repr, DecidableEq

/-- Oracle results of the external calls made during one commit. -/
structure CommitEnv where
  preprocessResult : Status
  walAppendResult : Status
  needWalSync : Bool
  needManifestUpdate : Bool
  manifestResult : Status
  walFlushResult : Status
  memtableResult : Status
  ingestResult : Status
  deriving Repr, DecidableEq

/-- One commit cycle's input: the formed group (leader first, in group
order), the group's `disableWAL` option, the operation count of an ingested
`WriteBatchWithIndex` (if one is present) and the environment oracles. -/
structure CommitInput where
  group : List Writer
  disableWAL : Bool
  wbwiCount : Option Nat
  env : CommitEnv
  deriving Repr, DecidableEq

/-- The sequence counters of `VersionSet` touched by the commit path:
`LastSequence` (the published counter) and `LastAllocatedSequence` (the
allocation counter used in two-write-queues mode). -/
structure DBState where
  lastPublished : Nat
  lastAllocated : Nat
  deriving Repr, DecidableEq

/-- Modelled from the spec: `WriteThread::ExitAsBatchGroupLeader` and
`Writer::FinalStatus` are not part of the provided sources; per the spec,
`ExitAsLeader(group, status)` sets every member's status and a member whose
validation callback failed sees its callback error when the group itself
succeeded. -/
def memberFinalStatus (groupStatus : Status) (w : Writer) : Status :=
  if !groupStatus.isOk then groupStatus
  else if w.callbackFailed then w.callbackStatus
  else groupStatus

/-- Everything one commit cycle did, as observable events: the group status
at exit, the reserved increment and range, the pre-release invocations and
sequence assignments, whether `LaunchParallelMemTableWriters` ran, which
writers' batches were inserted into the memtable, whether the WBWI was
ingested, whether a WAL append was attempted / marked not-synced / scheduled
for truncation, the `SetLastSequence` publish (if any), the per-member final
statuses and the status returned to the leader's caller. -/
structure CommitResult where
  status : Status
  seqInc : Nat
  range : Option (Nat × Nat)
  preReleaseInvoked : List Nat
  assignedSeqs : List (Nat × Nat)
  parallelLaunched : Bool
  memtableApplied : List Nat
  wbwiIngested : Bool
  walAppended : Bool
  walMarkedNotSynced : Bool
  walTruncated : Bool
  published : Option Nat
  memberStatuses : List Status
  returned : Status
  deriving Repr, DecidableEq

/-- The statistics loop of lines 301-321 for the commit's group. -/
def commitStats (cfg : EngineConfig) (inp : CommitInput) : GroupStats :=
  computeGroupStats cfg.allowConcurrentMemtableWrite inp.group

/-- `seq_inc` (lines 342-363): `valid_batches` in per-batch mode,
`total_count` in per-key mode, plus the operation count of an ingested
`WriteBatchWithIndex`. -/
def commitSeqInc (cfg : EngineConfig) (inp : CommitInput) : Nat :=
  (if cfg.seqPerBatch then (commitStats cfg inp).validBatches
   else (commitStats cfg inp).totalCount) +
  (match inp.wbwiCount with
   | some n => n
   | none => 0)

/-- `io_s` after lines 394-415: a WAL append is attempted (and its oracle
result taken) iff the WAL is enabled for the group's write options. -/
def commitIoS (inp : CommitInput) : Status :=
  if !inp.disableWAL then inp.env.walAppendResult else Status.ok

/-- The `last_sequence` value before the reservation: read from
`versions_->LastSequence()` at line 268 in single-queue mode, and from the
fetch-add on `LastAllocatedSequence` (lines 404-414) in two-queue mode. -/
def commitLastSeq0 (cfg : EngineConfig) (st : DBState) : Nat :=
  if cfg.twoWriteQueues then st.lastAllocated else st.lastPublished

/-- Modelled from the spec: `ConcurrentWriteGroupToWAL` and
`FetchAddLastAllocatedSequence` (lines 404-414) are not part of the provided
sources; both advance the allocation counter by `seq_inc` (the source comment
notes `LastAllocatedSequence is increased inside WriteToWAL`), whether or not
the append itself succeeds.  Single-queue mode does not touch the allocation
counter here. -/
def commitAllocState (cfg : EngineConfig) (inp : CommitInput) (st : DBState) :
    DBState :=
  if cfg.twoWriteQueues then
    { st with lastAllocated := st.lastAllocated + commitSeqInc cfg inp }
  else st

/-- The WAL sync block (lines 422-453): on success, `MarkLogsSynced` plus a
possible manifest update and (in two-queue mode) a WAL flush/sync whose
statuses replace the group status; on failure, `MarkLogsNotSynced` (the
second component records that this mark happened). -/
def statusAfterWalSync (cfg : EngineConfig) (env : CommitEnv) (s : Status) :
    Status × Bool :=
  if env.needWalSync then
    if s.isOk then
      let s1 := if env.needManifestUpdate then env.manifestResult else s
      let s2 := if s1.isOk && cfg.twoWriteQueues then env.walFlushResult
                else s1
      (s2, false)
    else (s, true)
  else (s, false)

/-- The group status entering the pre-release loop. -/
def commitSyncStatus (cfg : EngineConfig) (inp : CommitInput) : Status :=
  (statusAfterWalSync cfg inp.env (commitIoS inp)).1

/-- Whether `MarkLogsNotSynced` ran for this commit. -/
def commitWalMarkedNotSynced (cfg : EngineConfig) (inp : CommitInput) : Bool :=
  (statusAfterWalSync cfg inp.env (commitIoS inp)).2

/-- The pre-release callback phase (lines 455-486), entered only with an OK
status; otherwise no callback runs and the incoming status is kept. -/
def commitPreOut (cfg : EngineConfig) (inp : CommitInput) (st : DBState) :
    PreReleaseOut :=
  if (commitSyncStatus cfg inp).isOk then
    preReleaseLoop cfg.seqPerBatch inp.group 0 (commitLastSeq0 cfg st + 1)
  else
    { status := commitSyncStatus cfg inp, invoked := [], assigned := [] }

/-- Modelled from the spec: `WriteBatchInternal::InsertInto` over a write
group is not part of the provided sources; per the spec the leader inserts
every eligible writer's operations in group order, and in the parallel path
each eligible writer inserts its own batch.  These are the group positions of
the writers whose batches the memtable phase inserts
(`ShouldWriteToMemtable`). -/
def memtableEligible (group : List Writer) : List Nat :=
  group.enum.filterMap
    (fun iw => if iw.2.shouldWriteToMemtable then some iw.1 else none)

/-- The memtable phase (lines 488-521): entered only with an OK status;
serial or parallel according to the computed `parallel` flag; yields
`w.status` (the insert result oracle), whether
`LaunchParallelMemTableWriters` ran, and the inserted writers' positions. -/
def commitMemOut (cfg : EngineConfig) (inp : CommitInput) (st : DBState) :
    Status × Bool × List Nat :=
  if (commitPreOut cfg inp st).status.isOk then
    if !(commitStats cfg inp).parallel then
      (inp.env.memtableResult, false, memtableEligible inp.group)
    else
      (inp.env.memtableResult, true, memtableEligible inp.group)
  else (Status.ok, false, [])

/-- The WBWI ingestion block (lines 545-571): runs only when the group
status and `w.status` are OK and the WBWI batch is non-empty. -/
def commitIngestOut (cfg : EngineConfig) (inp : CommitInput) (st : DBState) :
    Status × Bool :=
  match inp.wbwiCount with
  | some n =>
    if (commitPreOut cfg inp st).status.isOk &&
       (commitMemOut cfg inp st).1.isOk && decide (0 < n) then
      (inp.env.ingestResult, true)
    else ((commitPreOut cfg inp st).status, false)
  | none => ((commitPreOut cfg inp st).status, false)

/-- Whether every post-memtable callback of the group returned OK
(lines 575-589). -/
def allPostCallbacksOk (group : List Writer) : Bool :=
  group.all (fun w => !w.hasPostMemtableCallback || w.postMemtableResult.isOk)

/-- The publish step (lines 573-595): `SetLastSequence(last_sequence)` runs
iff the group status, all post-memtable callbacks and `w.status` are OK;
otherwise the counters are left as after the allocation step. -/
def commitPublish (cfg : EngineConfig) (inp : CommitInput) (st : DBState) :
    Option Nat × DBState :=
  if (commitIngestOut cfg inp st).1.isOk && allPostCallbacksOk inp.group &&
     (commitMemOut cfg inp st).1.isOk then
    (some (commitLastSeq0 cfg st + commitSeqInc cfg inp),
     { commitAllocState cfg inp st with
         lastPublished := commitLastSeq0 cfg st + commitSeqInc cfg inp })
  else (none, commitAllocState cfg inp st)

/-- `w.FinalStatus()` for the leader (lines 608-610). -/
def leaderFinalStatus (inp : CommitInput) (wStatus : Status) : Status :=
  match inp.group with
  | [] => wStatus
  | w :: _ =>
    if !wStatus.isOk then wStatus
    else if w.callbackFailed then w.callbackStatus
    else wStatus

/-- The leader path of `DBImpl::WriteImpl` for one formed write group,
assembled from the stages above.  When `PreprocessWrite` fails, the whole
block of lines 289-522 is skipped and the exit block releases the group
with the failed status. -/
def groupCommit (cfg : EngineConfig) (inp : CommitInput) (st : DBState) :
    CommitResult × DBState :=
  if inp.env.preprocessResult.isOk then
    ({ status := (commitIngestOut cfg inp st).1
       seqInc := commitSeqInc cfg inp
       range := some (commitLastSeq0 cfg st + 1,
                      commitLastSeq0 cfg st + commitSeqInc cfg inp)
       preReleaseInvoked := (commitPreOut cfg inp st).invoked
       assignedSeqs := (commitPreOut cfg inp st).assigned
       parallelLaunched := (commitMemOut cfg inp st).2.1
       memtableApplied := (commitMemOut cfg inp st).2.2
       wbwiIngested := (commitIngestOut cfg inp st).2
       walAppended := !inp.disableWAL
       walMarkedNotSynced := commitWalMarkedNotSynced cfg inp
       walTruncated := !(commitMemOut cfg inp st).1.isOk &&
                       !inp.disableWAL && !cfg.twoWriteQueues
       published := (commitPublish cfg inp st).1
       memberStatuses := inp.group.map
         (memberFinalStatus (commitIngestOut cfg inp st).1)
       returned := if (commitIngestOut cfg inp st).1.isOk then
                     leaderFinalStatus inp (commitMemOut cfg inp st).1
                   else (commitIngestOut cfg inp st).1 },
     (commitPublish cfg inp st).2)
  else
    ({ status := inp.env.preprocessResult
       seqInc := 0
       range := none
       preReleaseInvoked := []
       assignedSeqs := []
       parallelLaunched := false
       memtableApplied := []
       wbwiIngested := false
       walAppended := false
       walMarkedNotSynced := false
       walTruncated := false
       published := none
       memberStatuses := inp.group.map
         (memberFinalStatus inp.env.preprocessResult)
       returned := inp.env.preprocessResult }, st)

/-- Sequential composition of commit cycles (the write thread serializes
group leaders: a new leader enters only after the previous one exits). -/
def runCommits (cfg : EngineConfig) :
    DBState → List CommitInput → List CommitResult × DBState
  | st, [] => ([], st)
  | st, c :: cs =>
    let r := groupCommit cfg c st
    let rest := runCommits cfg r.2 cs
    (r.1 :: rest.1, rest.2)

/-! ## The validation prefix of `WriteImpl` (lines 15-184)

Everything `WriteImpl` does before `write_thread_.JoinBatchGroup(&w)`:
the `InvalidArgument` / `NotSupported` checks in source order, the tracer
write for order-insensitive tracers, the low-priority throttle, and the
dispatch to the WAL-only / unordered / pipelined paths.  The outcome records
which path is taken; the flags record whether the tracer wrote and whether
the low-priority throttle (the only state-touching call before `Join`) was
reached. -/

/-- `WriteOptions::rate_limiter_priority` values distinguished by the code. -/
inductive RateLimiterPrio where
  | ioTotal : RateLimiterPrio
  | ioUser : RateLimiterPrio
  | other : RateLimiterPrio
  deriving Repr, DecidableEq

/-- The `WriteOptions` fields read by the validation prefix. -/
structure WriteOptionsM where
  sync : Bool
  disableWAL : Bool
  lowPri : Bool
  rateLimiterPriority : RateLimiterPrio
  protectionBytesPerKey : Nat
  deriving Repr, DecidableEq

/-- Engine options read by the validation prefix. -/
structure PrecheckConfig where
  twoWriteQueues : Bool
  seqPerBatch : Bool
  manualWalFlush : Bool
  enablePipelinedWrite : Bool
  unorderedWrite : Bool
  recycleLogFileNum : Nat
  rowCache : Bool
  tracerPresent : Bool
  tracerWriteOrderPreserved : Bool
  deriving Repr, DecidableEq

/-- Per-call facts read by the validation prefix. -/
structure PrecheckCall where
  batchIsNull : Bool
  timestampsUpdateNeeded : Bool
  batchHasDeleteRange : Bool
  disableMemtable : Bool
  hasPostMemtableCallback : Bool
  wbwiPresent : Bool
  wbwiOverwriteKey : Bool
  throttleResult : Status
  deriving Repr, DecidableEq

/-- Which way the validation prefix leaves `WriteImpl`. -/
inductive PrecheckOutcome where
  | earlyReturn : Status → PrecheckOutcome
  | walOnlyPath : PrecheckOutcome
  | unorderedPath : PrecheckOutcome
  | pipelinedPath : PrecheckOutcome
  | joinGroup : PrecheckOutcome
  deriving Repr, DecidableEq

/-- Result of the validation prefix. -/
structure PrecheckResult where
  outcome : PrecheckOutcome
  tracerWrote : Bool
  throttleChecked : Bool
  deriving Repr, DecidableEq

/-- Whether the order-insensitive tracer writes during the validation prefix
(lines 58-67), between the sixth check and the sync/disableWAL check. -/
def tracerWritesEarly (cfg : PrecheckConfig) : Bool :=
  cfg.tracerPresent && !cfg.tracerWriteOrderPreserved

/-- The validation prefix of `DBImpl::WriteImpl`, in source order. -/
def writeImplPrecheck (cfg : PrecheckConfig) (opts : WriteOptionsM)
    (call : PrecheckCall) : PrecheckResult :=
  if call.batchIsNull then
    { outcome := .earlyReturn (.invalidArgument "Batch is nullptr!")
      tracerWrote := false, throttleChecked := false }
  else if !call.disableMemtable && call.timestampsUpdateNeeded then
    { outcome :=
        .earlyReturn (.invalidArgument "write batch must have timestamp(s) set")
      tracerWrote := false, throttleChecked := false }
  else if opts.rateLimiterPriority ≠ RateLimiterPrio.ioTotal ∧
          opts.rateLimiterPriority ≠ RateLimiterPrio.ioUser then
    { outcome := .earlyReturn (.invalidArgument "rate_limiter_priority value")
      tracerWrote := false, throttleChecked := false }
  else if opts.rateLimiterPriority ≠ RateLimiterPrio.ioTotal ∧
          (opts.disableWAL ∨ cfg.manualWalFlush) then
    { outcome :=
        .earlyReturn (.invalidArgument "rate-limited automatic WAL flush only")
      tracerWrote := false, throttleChecked := false }
  else if opts.protectionBytesPerKey ≠ 0 ∧ opts.protectionBytesPerKey ≠ 8 then
    { outcome :=
        .earlyReturn (.invalidArgument "protection_bytes_per_key 0 or 8")
      tracerWrote := false, throttleChecked := false }
  else if opts.disableWAL ∧ 0 < cfg.recycleLogFileNum ∧
          ¬(cfg.twoWriteQueues ∧ call.disableMemtable) then
    { outcome :=
        .earlyReturn (.invalidArgument "disableWAL with recycle_log_file_num")
      tracerWrote := false, throttleChecked := false }
  else
    if opts.sync ∧ opts.disableWAL then
      { outcome := .earlyReturn (.invalidArgument "Sync writes has to enable WAL.")
        tracerWrote := tracerWritesEarly cfg, throttleChecked := false }
    else if cfg.twoWriteQueues ∧ cfg.enablePipelinedWrite then
      { outcome := .earlyReturn (.notSupported "pipelined with concurrent prepares")
        tracerWrote := tracerWritesEarly cfg, throttleChecked := false }
    else if cfg.seqPerBatch ∧ cfg.enablePipelinedWrite then
      { outcome := .earlyReturn (.notSupported "pipelined with seq_per_batch")
        tracerWrote := tracerWritesEarly cfg, throttleChecked := false }
    else if cfg.unorderedWrite ∧ cfg.enablePipelinedWrite then
      { outcome := .earlyReturn (.notSupported "pipelined with unordered_write")
        tracerWrote := tracerWritesEarly cfg, throttleChecked := false }
    else if cfg.enablePipelinedWrite ∧ call.hasPostMemtableCallback then
      { outcome := .earlyReturn (.notSupported "pipelined post_memtable_callback")
        tracerWrote := tracerWritesEarly cfg, throttleChecked := false }
    else if cfg.seqPerBatch ∧ call.hasPostMemtableCallback then
      { outcome := .earlyReturn (.notSupported "seq_per_batch post_memtable_callback")
        tracerWrote := tracerWritesEarly cfg, throttleChecked := false }
    else if call.batchHasDeleteRange ∧ cfg.rowCache then
      { outcome := .earlyReturn (.notSupported "DeleteRange with row cache")
        tracerWrote := tracerWritesEarly cfg, throttleChecked := false }
    else if call.wbwiPresent ∧ cfg.unorderedWrite then
      { outcome := .earlyReturn (.notSupported "WBWI with unordered_write")
        tracerWrote := tracerWritesEarly cfg, throttleChecked := false }
    else if call.wbwiPresent ∧ cfg.enablePipelinedWrite then
      { outcome := .earlyReturn (.notSupported "WBWI with pipelined_write")
        tracerWrote := tracerWritesEarly cfg, throttleChecked := false }
    else if call.wbwiPresent ∧ ¬call.wbwiOverwriteKey then
      { outcome := .earlyReturn (.notSupported "WBWI requires overwrite_key")
        tracerWrote := tracerWritesEarly cfg, throttleChecked := false }
    else if opts.lowPri ∧ ¬call.throttleResult.isOk then
      { outcome := .earlyReturn call.throttleResult
        tracerWrote := tracerWritesEarly cfg, throttleChecked := true }
    else if cfg.twoWriteQueues ∧ call.disableMemtable then
      { outcome := .walOnlyPath
        tracerWrote := tracerWritesEarly cfg, throttleChecked := opts.lowPri }
    else if cfg.unorderedWrite then
      { outcome := .unorderedPath
        tracerWrote := tracerWritesEarly cfg, throttleChecked := opts.lowPri }
    else if cfg.enablePipelinedWrite then
      { outcome := .pipelinedPath
        tracerWrote := tracerWritesEarly cfg, throttleChecked := opts.lowPri }
    else
      { outcome := .joinGroup
        tracerWrote := tracerWritesEarly cfg, throttleChecked := opts.lowPri }

/-! ## Spec-side characterizations

Definitions following the words of the spec, to be compared with the
source-derived ones above. -/

/-- The group positions (counted from `p`) of writers eligible for the
pre-release callback: validation callback did not fail, and a pre-release
callback is present. -/
def preReleaseEligibleFrom : List Writer → Nat → List Nat
  | [], _ => []
  | w :: rest, p =>
    if !w.callbackFailed && w.hasPreReleaseCallback
    then p :: preReleaseEligibleFrom rest (p + 1)
    else preReleaseEligibleFrom rest (p + 1)

/-- The group positions of writers eligible for the pre-release callback. -/
def preReleaseEligible (group : List Writer) : List Nat :=
  preReleaseEligibleFrom group 0

/-- The positions of eligible writers up to and including the first one whose
pre-release callback fails, in group order. -/
def invokedUpToFirstFailure : List Writer → Nat → List Nat
  | [], _ => []
  | w :: rest, p =>
    if w.callbackFailed then invokedUpToFirstFailure rest (p + 1)
    else if w.hasPreReleaseCallback then
      if w.preReleaseResult.isOk then p :: invokedUpToFirstFailure rest (p + 1)
      else [p]
    else invokedUpToFirstFailure rest (p + 1)

/-- The first pre-release callback failure of the group, in group order. -/
def firstPreReleaseFailure : List Writer → Option Status
  | [] => none
  | w :: rest =>
    if !w.callbackFailed && w.hasPreReleaseCallback && !w.preReleaseResult.isOk
    then some w.preReleaseResult
    else firstPreReleaseFailure rest

/-- Disjointness of two closed sequence ranges `[c, l]` (a range with
`l < c` is empty and disjoint from everything). -/
def rangesDisjoint (a b : Nat × Nat) : Prop :=
  a.2 < b.1 ∨ b.2 < a.1

instance (a b : Nat × Nat) : Decidable (rangesDisjoint a b) := by
  unfold rangesDisjoint; infer_instance

/-! ## Concrete fixtures used by counterexamples and witnesses -/

/-- A plain writer: one key, no callbacks, writes to the memtable. -/
def okWriter : Writer :=
  { batch := { count := 1, byteSize := 8, hasMerge := false }
    disableMemtable := false, batchCnt := 0
    hasCallback := false, callbackStatus := Status.ok
    hasPreReleaseCallback := false, preReleaseResult := Status.ok
    hasPostMemtableCallback := false, postMemtableResult := Status.ok }

/-- A WAL-only writer (`disable_memtable`) whose batch contains a merge. -/
def mergeWalOnlyWriter : Writer :=
  { batch := { count := 2, byteSize := 16, hasMerge := true }
    disableMemtable := true, batchCnt := 0
    hasCallback := false, callbackStatus := Status.ok
    hasPreReleaseCallback := false, preReleaseResult := Status.ok
    hasPostMemtableCallback := false, postMemtableResult := Status.ok }

/-- A writer with a pre-release callback that succeeds. -/
def preOkWriter : Writer :=
  { okWriter with hasPreReleaseCallback := true }

/-- A writer with a pre-release callback that fails. -/
def preFailWriter : Writer :=
  { okWriter with hasPreReleaseCallback := true,
                  preReleaseResult := Status.busy "cb" }

/-- An environment where every external call succeeds and no WAL sync is
requested. -/
def envAllOk : CommitEnv :=
  { preprocessResult := Status.ok, walAppendResult := Status.ok
    needWalSync := false, needManifestUpdate := false
    manifestResult := Status.ok, walFlushResult := Status.ok
    memtableResult := Status.ok, ingestResult := Status.ok }

/-- Single write queue, per-key sequencing, no concurrent memtable writes. -/
def cfgSingleQueue : EngineConfig :=
  { twoWriteQueues := false, seqPerBatch := false
    allowConcurrentMemtableWrite := false }

/-- Single write queue, per-key sequencing, concurrent memtable writes
allowed. -/
def cfgConcurrent : EngineConfig :=
  { twoWriteQueues := false, seqPerBatch := false
    allowConcurrentMemtableWrite := true }

/-- A one-writer commit whose external calls all succeed. -/
def commitInputOk : CommitInput :=
  { group := [okWriter], disableWAL := false, wbwiCount := none
    env := envAllOk }

/-- A one-writer commit whose WAL append fails. -/
def commitInputWalFail : CommitInput :=
  { group := [okWriter], disableWAL := false, wbwiCount := none
    env := { envAllOk with walAppendResult := Status.ioError "wal" } }

/-- A two-writer group in which the second writer is WAL-only and carries a
merge operation. -/
def commitInputMergeParallel : CommitInput :=
  { group := [okWriter, mergeWalOnlyWriter], disableWAL := false
    wbwiCount := none, env := envAllOk }

/-- A parallel-eligible two-writer group without merges. -/
def commitInputParallelOk : CommitInput :=
  { group := [okWriter, okWriter], disableWAL := false
    wbwiCount := none, env := envAllOk }

/-- A three-writer group in which only the second writer's pre-release
callback fails. -/
def commitInputPreFail : CommitInput :=
  { group := [preOkWriter, preFailWriter, okWriter], disableWAL := false
    wbwiCount := none, env := envAllOk }

/-! ## Helper lemmas -/

/-- On a sorted run, seeking past the keys below `k` is the same as keeping
exactly the keys at or above `k`. -/
lemma dropWhile_lt_eq_filter {k : Nat} :
    ∀ {l : List Nat}, l.Pairwise (· ≤ ·) →
      l.dropWhile (fun x => decide (x < k)) = l.filter (fun x => decide (k ≤ x)) := by
  intro l
  induction l with
  | nil => simp
  | cons a t ih =>
    intro hp
    by_cases h : a < k
    · have ht : t.dropWhile (fun x => decide (x < k)) =
          t.filter (fun x => decide (k ≤ x)) := ih hp.of_cons
      simp [List.dropWhile_cons, List.filter_cons, h, Nat.not_le.mpr h, ht]
    · have hk : k ≤ a := Nat.not_lt.mp h
      have ht : t.filter (fun x => decide (k ≤ x)) = t := by
        rw [List.filter_eq_self]
        intro x hx
        have := (List.pairwise_cons.mp hp).1 x hx
        simpa using Nat.le_trans hk this
      simp [List.dropWhile_cons, List.filter_cons, h, hk, ht]

/-- The head of a filtered list is the first element satisfying the
predicate. -/
lemma head?_filter_eq_find? (p : Nat → Bool) :
    ∀ l : List Nat, (l.filter p).head? = l.find? p := by
  intro l
  induction l with
  | nil => simp
  | cons a t ih =>
    by_cases h : p a
    · simp [List.filter_cons, List.find?_cons, h]
    · simp [List.filter_cons, List.find?_cons, h, ih]

/-- The `valid_batches` accumulated by the statistics loop is the sum of
`batch_cnt` over the writers whose validation callback passes. -/
lemma foldl_groupStatsStep_validBatches :
    ∀ (group : List Writer) (acc : GroupStats),
      (group.foldl groupStatsStep acc).validBatches =
        acc.validBatches +
          ((group.filter (fun w => w.checkCallback)).map
            (fun w => w.batchCnt)).sum := by
  intro group
  induction group with
  | nil => simp
  | cons w t ih =>
    intro acc
    by_cases hc : w.checkCallback <;>
      by_cases hs : w.shouldWriteToMemtable <;>
        by_cases hp : w.hasPreReleaseCallback <;>
          simp [groupStatsStep, hc, hs, hp, List.filter_cons, ih] <;> omega

/-- The `total_count` accumulated by the statistics loop is the total key
count over the writers that pass validation and will write to the
memtable. -/
lemma foldl_groupStatsStep_totalCount :
    ∀ (group : List Writer) (acc : GroupStats),
      (group.foldl groupStatsStep acc).totalCount =
        acc.totalCount +
          ((group.filter (fun w => w.checkCallback && w.shouldWriteToMemtable)).map
            (fun w => w.batch.count)).sum := by
  intro group
  induction group with
  | nil => simp
  | cons w t ih =>
    intro acc
    by_cases hc : w.checkCallback <;>
      by_cases hs : w.shouldWriteToMemtable <;>
        by_cases hp : w.hasPreReleaseCallback <;>
          simp [groupStatsStep, hc, hs, hp, List.filter_cons, ih] <;> omega

/-- The `parallel` flag computed by the statistics loop: the initial value,
and-ed with "no validation-passing memtable-bound writer has a merge". -/
lemma foldl_groupStatsStep_parallel :
    ∀ (group : List Writer) (acc : GroupStats),
      (group.foldl groupStatsStep acc).parallel =
        (acc.parallel && group.all
          (fun w => !(w.checkCallback && w.shouldWriteToMemtable) ||
            !w.batch.hasMerge)) := by
  intro group
  induction group with
  | nil => simp
  | cons w t ih =>
    intro acc
    by_cases hc : w.checkCallback <;>
      by_cases hs : w.shouldWriteToMemtable <;>
        by_cases hp : w.hasPreReleaseCallback <;>
          simp [groupStatsStep, hc, hs, hp, ih, Bool.and_assoc]

/-- The pre-release loop invokes exactly the eligible writers up to and
including the first failing one, in group order. -/
lemma preReleaseLoop_invoked (spb : Bool) :
    ∀ (group : List Writer) (p nextSeq : Nat),
      (preReleaseLoop spb group p nextSeq).invoked =
        invokedUpToFirstFailure group p := by
  intro group
  induction group with
  | nil => intro p n; simp [preReleaseLoop, invokedUpToFirstFailure]
  | cons w t ih =>
    intro p n
    by_cases hf : w.callbackFailed
    · simp [preReleaseLoop, invokedUpToFirstFailure, hf, ih]
    · by_cases hcb : w.hasPreReleaseCallback
      · by_cases hok : w.preReleaseResult.isOk
        · simp [preReleaseLoop, invokedUpToFirstFailure, hf, hcb, hok, ih]
        · simp [preReleaseLoop, invokedUpToFirstFailure, hf, hcb, hok]
      · simp [preReleaseLoop, invokedUpToFirstFailure, hf, hcb, ih]

/-- The status of the pre-release loop is the first pre-release failure of
the group (OK when there is none). -/
lemma preReleaseLoop_status (spb : Bool) :
    ∀ (group : List Writer) (p nextSeq : Nat),
      (preReleaseLoop spb group p nextSeq).status =
        (firstPreReleaseFailure group).getD Status.ok := by
  intro group
  induction group with
  | nil => intro p n; simp [preReleaseLoop, firstPreReleaseFailure]
  | cons w t ih =>
    intro p n
    by_cases hf : w.callbackFailed
    · simp [preReleaseLoop, firstPreReleaseFailure, hf, ih]
    · by_cases hcb : w.hasPreReleaseCallback
      · by_cases hok : w.preReleaseResult.isOk
        · simp [preReleaseLoop, firstPreReleaseFailure, hf, hcb, hok, ih]
        · simp [preReleaseLoop, firstPreReleaseFailure, hf, hcb, hok]
      · simp [preReleaseLoop, firstPreReleaseFailure, hf, hcb, ih]

/-- When no pre-release callback fails, the invoked positions are exactly
the eligible positions. -/
lemma invokedUpToFirstFailure_eq_eligible :
    ∀ (group : List Writer) (p : Nat),
      firstPreReleaseFailure group = none →
      invokedUpToFirstFailure group p = preReleaseEligibleFrom group p := by
  intro group
  induction group with
  | nil => intro p _; simp [invokedUpToFirstFailure, preReleaseEligibleFrom]
  | cons w t ih =>
    intro p hnone
    by_cases hf : w.callbackFailed
    · have hnone' : firstPreReleaseFailure t = none := by
        simpa [firstPreReleaseFailure, hf] using hnone
      simp [invokedUpToFirstFailure, preReleaseEligibleFrom, hf, ih _ hnone']
    · by_cases hcb : w.hasPreReleaseCallback
      · by_cases hok : w.preReleaseResult.isOk
        · have hnone' : firstPreReleaseFailure t = none := by
            simpa [firstPreReleaseFailure, hf, hcb, hok] using hnone
          simp [invokedUpToFirstFailure, preReleaseEligibleFrom, hf, hcb, hok,
            ih _ hnone']
        · exfalso
          simp [firstPreReleaseFailure, hf, hcb, hok] at hnone
      · have hnone' : firstPreReleaseFailure t = none := by
          simpa [firstPreReleaseFailure, hf, hcb] using hnone
        simp [invokedUpToFirstFailure, preReleaseEligibleFrom, hf, hcb,
          ih _ hnone']

/-- Every invoked position is at least the starting position. -/
lemma invokedUpToFirstFailure_lb :
    ∀ (group : List Writer) (p : Nat),
      ∀ q ∈ invokedUpToFirstFailure group p, p ≤ q := by
  intro group
  induction group with
  | nil => simp [invokedUpToFirstFailure]
  | cons w t ih =>
    intro p q hq
    by_cases hf : w.callbackFailed
    · simp only [invokedUpToFirstFailure, hf, if_true] at hq
      exact Nat.le_of_succ_le (ih (p + 1) q hq)
    · by_cases hcb : w.hasPreReleaseCallback
      · by_cases hok : w.preReleaseResult.isOk
        · simp only [invokedUpToFirstFailure, hf, hcb, hok, if_true,
            if_false] at hq
          rcases List.mem_cons.mp hq with h | hq
          · omega
          · exact Nat.le_of_succ_le (ih (p + 1) q hq)
        · simp only [invokedUpToFirstFailure, hf, hcb, hok, if_true,
            if_false] at hq
          have h := List.mem_singleton.mp hq
          omega
      · simp only [invokedUpToFirstFailure, hf, hcb, if_false] at hq
        exact Nat.le_of_succ_le (ih (p + 1) q hq)

/-- The invoked positions are strictly increasing: each eligible writer is
invoked at most once, in group order. -/
lemma invokedUpToFirstFailure_pairwise :
    ∀ (group : List Writer) (p : Nat),
      (invokedUpToFirstFailure group p).Pairwise (· < ·) := by
  intro group
  induction group with
  | nil => simp [invokedUpToFirstFailure]
  | cons w t ih =>
    intro p
    by_cases hf : w.callbackFailed
    · simpa [invokedUpToFirstFailure, hf] using ih (p + 1)
    · by_cases hcb : w.hasPreReleaseCallback
      · by_cases hok : w.preReleaseResult.isOk
        · simp only [invokedUpToFirstFailure, hf, hcb, hok, if_true, if_false,
            Bool.not_false, ite_true, ite_false]
          refine List.pairwise_cons.mpr ⟨?_, ih (p + 1)⟩
          intro q hq
          have := invokedUpToFirstFailure_lb t (p + 1) q hq
          omega
        · simp [invokedUpToFirstFailure, hf, hcb, hok]
      · simpa [invokedUpToFirstFailure, hf, hcb] using ih (p + 1)

/-! ## Claim C8: compaction resume positioning -/

/-- C8: when resuming from a saved progress checkpoint the input iterator is
positioned at the first record with key ≥ the checkpoint key and no record
with a smaller key is re-emitted; when the resume call reports `NotFound` the
iterator seeks to the beginning; and on any other resume error the
subcompaction records that status and stops before processing any record. -/
theorem resume_prologue_positions_iterator (r : ResumeOutcome)
    (input : List Nat) (hs : input.Pairwise (· ≤ ·)) :
    (∀ k, r = ResumeOutcome.found k →
        (processResumePrologue r input).status = Status.ok ∧
        (processResumePrologue r input).emitted =
          input.filter (fun x => decide (k ≤ x)) ∧
        (processResumePrologue r input).emitted.head? =
          input.find? (fun x => decide (k ≤ x)) ∧
        ∀ x ∈ (processResumePrologue r input).emitted, k ≤ x) ∧
    (r = ResumeOutcome.err Status.notFound →
        (processResumePrologue r input).status = Status.ok ∧
        (processResumePrologue r input).emitted = input) ∧
    (∀ s, r = ResumeOutcome.err s → s.isNotFound = false →
        (processResumePrologue r input).status = s ∧
        (processResumePrologue r input).emitted = []) := by
  refine ⟨?_, ?_, ?_⟩
  · rintro k rfl
    have hfeq := dropWhile_lt_eq_filter (k := k) hs
    refine ⟨rfl, ?_, ?_, ?_⟩
    · simpa [processResumePrologue, resumeSeek] using hfeq
    · simp [processResumePrologue, resumeSeek, hfeq, head?_filter_eq_find?]
    · intro x hx
      simp only [processResumePrologue, resumeSeek, hfeq] at hx
      have := List.of_mem_filter hx
      simpa using this
  · rintro rfl
    simp [processResumePrologue, Status.isNotFound]
  · rintro s rfl hnf
    simp [processResumePrologue, hnf]

/-- Witness for C8 at a concrete sorted run and checkpoint key. -/
theorem resume_prologue_positions_iterator_witness :
    List.Pairwise (· ≤ ·) ([1, 2, 3, 4] : List Nat) ∧
    (processResumePrologue (ResumeOutcome.found 3) [1, 2, 3, 4]).emitted =
      [1, 2, 3, 4].filter (fun x => decide (3 ≤ x)) :=
  ⟨by decide,
   ((resume_prologue_positions_iterator (ResumeOutcome.found 3) [1, 2, 3, 4]
      (by decide)).1 3 rfl).2.1⟩

/-! ## Claim C9: WAL totals advance even on AddRecord failure -/

/-- C9: whenever `WriteToWAL` reaches the `AddRecord` call (the checksum
passed and the timestamp-size record succeeded), the running totals
`wals_total_size_`, `wal_file_number_size`, `*log_size` and the `wal_empty_`
flag are updated by the appended entry's size regardless of whether
`AddRecord` returned OK — the totals advance on failure as well as on
success. -/
theorem writeToWAL_totals_advance_even_on_failure
    (manualWalFlush twoWriteQueues : Bool) (entrySize : Nat)
    (tsRecordResult addRecordResult : Status) (st : WalState)
    (hts : tsRecordResult.isOk = true) :
    (writeToWAL manualWalFlush twoWriteQueues entrySize true
      tsRecordResult addRecordResult st).state.walsTotalSize =
        st.walsTotalSize + entrySize ∧
    (writeToWAL manualWalFlush twoWriteQueues entrySize true
      tsRecordResult addRecordResult st).state.walFileNumberSize =
        st.walFileNumberSize + entrySize ∧
    (writeToWAL manualWalFlush twoWriteQueues entrySize true
      tsRecordResult addRecordResult st).state.walEmpty = false ∧
    (writeToWAL manualWalFlush twoWriteQueues entrySize true
      tsRecordResult addRecordResult st).logSize = some entrySize ∧
    (writeToWAL manualWalFlush twoWriteQueues entrySize true
      tsRecordResult addRecordResult st).status = addRecordResult := by
  unfold writeToWAL
  by_cases hl : manualWalFlush && !twoWriteQueues <;> simp [hts, hl]

/-- Witness for C9: a failing `AddRecord` still advances the totals. -/
theorem writeToWAL_totals_advance_even_on_failure_witness :
    (Status.ok).isOk = true ∧
    (writeToWAL false false 7 true Status.ok (Status.ioError "disk")
      ⟨0, 0, true, 9, false⟩).state.walsTotalSize = 0 + 7 ∧
    (writeToWAL false false 7 true Status.ok (Status.ioError "disk")
      ⟨0, 0, true, 9, false⟩).status = Status.ioError "disk" :=
  ⟨rfl,
   (writeToWAL_totals_advance_even_on_failure false false 7 Status.ok
     (Status.ioError "disk") ⟨0, 0, true, 9, false⟩ rfl).1,
   (writeToWAL_totals_advance_even_on_failure false false 7 Status.ok
     (Status.ioError "disk") ⟨0, 0, true, 9, false⟩ rfl).2.2.2.2⟩

/-! ## Claim C10: mutex held across the timestamp-record early return -/

/-- C10: when locking is required (`manual_wal_flush_` set and
`two_write_queues_` unset) and `MaybeAddUserDefinedTimestampSizeRecord`
returns a non-OK status, `WriteToWAL` returns that status early while the
`wal_write_mutex_` acquired on entry is still held — the unlock on that path
is never executed, and none of the totals are updated. -/
theorem writeToWAL_mutex_held_on_ts_record_failure
    (entrySize : Nat) (tsRecordResult addRecordResult : Status)
    (st : WalState) (hm : st.mutexHeld = false)
    (hts : tsRecordResult.isOk = false) :
    (writeToWAL true false entrySize true tsRecordResult
      addRecordResult st).state.mutexHeld = true ∧
    (writeToWAL true false entrySize true tsRecordResult
      addRecordResult st).status = tsRecordResult ∧
    (writeToWAL true false entrySize true tsRecordResult
      addRecordResult st).state.walsTotalSize = st.walsTotalSize ∧
    (writeToWAL true false entrySize true tsRecordResult
      addRecordResult st).state.walFileNumberSize = st.walFileNumberSize ∧
    (writeToWAL true false entrySize true tsRecordResult
      addRecordResult st).state.walEmpty = st.walEmpty ∧
    (writeToWAL true false entrySize true tsRecordResult
      addRecordResult st).walUsed = none := by
  unfold writeToWAL
  simp [hts]

/-- Witness for C10 at a concrete failing timestamp-size record. -/
theorem writeToWAL_mutex_held_on_ts_record_failure_witness :
    (⟨3, 4, true, 9, false⟩ : WalState).mutexHeld = false ∧
    (Status.ioError "ts").isOk = false ∧
    (writeToWAL true false 7 true (Status.ioError "ts") Status.ok
      ⟨3, 4, true, 9, false⟩).state.mutexHeld = true ∧
    (writeToWAL true false 7 true (Status.ioError "ts") Status.ok
      ⟨3, 4, true, 9, false⟩).status = Status.ioError "ts" :=
  ⟨rfl, rfl,
   (writeToWAL_mutex_held_on_ts_record_failure 7 (Status.ioError "ts")
     Status.ok ⟨3, 4, true, 9, false⟩ rfl rfl).1,
   (writeToWAL_mutex_held_on_ts_record_failure 7 (Status.ioError "ts")
     Status.ok ⟨3, 4, true, 9, false⟩ rfl rfl).2.1⟩

/-! ## Claim C1: sequence-range reservation across commits -/

/-- One commit preserves the published-below-allocated invariant, never
decreases the published counter, leaves it unchanged when nothing is
published, and publishes exactly the top of its reserved range, whose lower
end is above the previously published counter. -/
lemma groupCommit_step_facts (cfg : EngineConfig) (c : CommitInput)
    (st : DBState)
    (hinv : cfg.twoWriteQueues = true → st.lastPublished ≤ st.lastAllocated) :
    (cfg.twoWriteQueues = true →
      (groupCommit cfg c st).2.lastPublished ≤
        (groupCommit cfg c st).2.lastAllocated) ∧
    st.lastPublished ≤ (groupCommit cfg c st).2.lastPublished ∧
    ((groupCommit cfg c st).1.published = none →
      (groupCommit cfg c st).2.lastPublished = st.lastPublished) ∧
    (∀ v, (groupCommit cfg c st).1.published = some v →
      v = (groupCommit cfg c st).2.lastPublished ∧
      ∃ c1 l1, (groupCommit cfg c st).1.range = some (c1, l1) ∧
        st.lastPublished < c1 ∧ l1 = v) := by
  unfold groupCommit
  by_cases hpre : c.env.preprocessResult.isOk
  · simp only [hpre, if_true, ite_true]
    unfold commitPublish
    split
    · by_cases htw : cfg.twoWriteQueues <;>
        simp_all [commitAllocState, commitLastSeq0] <;> omega
    · by_cases htw : cfg.twoWriteQueues <;>
        simp_all [commitAllocState, commitLastSeq0] <;> omega
  · simp only [hpre, if_false, ite_false]
    refine ⟨hinv, Nat.le_refl _, fun _ => rfl, ?_⟩
    intro v hv
    simp at hv

/-- A run of commits preserves the invariant and never decreases the
published counter. -/
lemma runCommits_inv (cfg : EngineConfig) :
    ∀ (cs : List CommitInput) (st : DBState),
      (cfg.twoWriteQueues = true → st.lastPublished ≤ st.lastAllocated) →
      (cfg.twoWriteQueues = true →
        (runCommits cfg st cs).2.lastPublished ≤
          (runCommits cfg st cs).2.lastAllocated) ∧
      st.lastPublished ≤ (runCommits cfg st cs).2.lastPublished := by
  intro cs
  induction cs with
  | nil =>
    intro st h
    exact ⟨h, Nat.le_refl _⟩
  | cons c cs ih =>
    intro st h
    have hstep := groupCommit_step_facts cfg c st h
    have hrest := ih (groupCommit cfg c st).2 hstep.1
    simp only [runCommits]
    exact ⟨hrest.1, Nat.le_trans hstep.2.1 hrest.2⟩

/-- Every published value of a run is at least the starting published
counter, and its reserved range sits strictly above that counter. -/
lemma runCommits_published_bounds (cfg : EngineConfig) :
    ∀ (cs : List CommitInput) (st : DBState),
      (cfg.twoWriteQueues = true → st.lastPublished ≤ st.lastAllocated) →
      ∀ r ∈ (runCommits cfg st cs).1, ∀ v, r.published = some v →
        st.lastPublished ≤ v ∧
        ∃ c1 l1, r.range = some (c1, l1) ∧ st.lastPublished < c1 ∧ l1 = v := by
  intro cs
  induction cs with
  | nil =>
    intro st _ r hr
    simp [runCommits] at hr
  | cons c cs ih =>
    intro st h r hr v hv
    have hstep := groupCommit_step_facts cfg c st h
    simp only [runCommits, List.mem_cons] at hr
    rcases hr with rfl | hr
    · obtain ⟨hveq, c1, l1, hrange, hlt, hl1⟩ := hstep.2.2.2 v hv
      refine ⟨?_, c1, l1, hrange, hlt, hl1⟩
      have := hstep.2.1
      omega
    · obtain ⟨hle, c1, l1, hrange, hlt, hl1⟩ :=
        ih (groupCommit cfg c st).2 hstep.1 r hr v hv
      have := hstep.2.1
      exact ⟨by omega, c1, l1, hrange, by omega, hl1⟩

/-- C1 (amended): across any sequence of commits, the published last-sequence
counter is non-decreasing, and the reserved ranges of any two commits that
both publish are disjoint.  (The original claim — that the ranges of *all*
groups are disjoint — fails: a group whose WAL append fails does not publish,
and in single-queue mode its reserved range is reused by the next group; see
the counterexample.) -/
theorem published_commit_ranges_disjoint (cfg : EngineConfig) (st : DBState)
    (cs : List CommitInput)
    (hinv : cfg.twoWriteQueues = true → st.lastPublished ≤ st.lastAllocated) :
    List.Pairwise
      (fun a b => ∀ va vb, a.published = some va → b.published = some vb →
        va ≤ vb ∧
        ∀ ra rb, a.range = some ra → b.range = some rb →
          rangesDisjoint ra rb)
      (runCommits cfg st cs).1 := by
  induction cs generalizing st with
  | nil => simp [runCommits]
  | cons c cs ih =>
    have hstep := groupCommit_step_facts cfg c st hinv
    simp only [runCommits]
    refine List.pairwise_cons.mpr ⟨?_, ih (groupCommit cfg c st).2 hstep.1⟩
    intro b hb va vb hva hvb
    obtain ⟨hveq, c1, l1, hrange, _, hl1⟩ := hstep.2.2.2 va hva
    obtain ⟨hle, c2, l2, hrange2, hlt2, hl2⟩ :=
      runCommits_published_bounds cfg cs (groupCommit cfg c st).2 hstep.1
        b hb vb hvb
    refine ⟨by omega, ?_⟩
    intro ra rb hra hrb
    rw [hrange] at hra
    rw [hrange2] at hrb
    cases hra
    cases hrb
    left
    simp only []
    omega

/-- Witness for C1 (amended) at a concrete two-commit run. -/
theorem published_commit_ranges_disjoint_witness :
    (cfgSingleQueue.twoWriteQueues = true → (5 : Nat) ≤ 5) ∧
    List.Pairwise
      (fun a b => ∀ va vb, a.published = some va → b.published = some vb →
        va ≤ vb ∧
        ∀ ra rb, a.range = some ra → b.range = some rb →
          rangesDisjoint ra rb)
      (runCommits cfgSingleQueue ⟨5, 5⟩ [commitInputOk, commitInputOk]).1 :=
  ⟨fun _ => Nat.le_refl 5,
   published_commit_ranges_disjoint cfgSingleQueue ⟨5, 5⟩
     [commitInputOk, commitInputOk] (fun _ => Nat.le_refl 5)⟩

/-- C1 counterexample: starting from published counter 5 in single-queue
mode, a group whose WAL append fails reserves the range `[6,6]`, and the
next group reserves the same range `[6,6]` — the ranges reserved by two
different groups overlap, refuting the unrestricted non-overlap claim. -/
theorem commit_ranges_overlap_after_wal_failure :
    ((runCommits cfgSingleQueue ⟨5, 5⟩
        [commitInputWalFail, commitInputOk]).1.map (fun r => r.range)) =
      [some (6, 6), some (6, 6)] ∧
    ¬ rangesDisjoint (6, 6) (6, 6) := by
  constructor
  · rfl
  · intro h
    rcases h with h | h <;> omega

/-! ## Claim C2: a failed WAL append aborts the whole group -/

/-- C2: if the WAL append returns a non-OK IO status, then no pre-release
callback is invoked, no writer's batch is inserted into the memtable (and the
parallel path is not launched), no WBWI is ingested, `SetLastSequence` is not
called — the published counter is unchanged — the log segment is marked
not-synced exactly when a sync was requested, and the IO error becomes the
group status surfaced to every member and returned to the caller. -/
theorem wal_failure_aborts_group (cfg : EngineConfig) (inp : CommitInput)
    (st : DBState) (m : String)
    (hpre : inp.env.preprocessResult = Status.ok)
    (hwal : inp.env.walAppendResult = Status.ioError m)
    (hdw : inp.disableWAL = false) :
    (groupCommit cfg inp st).1.preReleaseInvoked = [] ∧
    (groupCommit cfg inp st).1.memtableApplied = [] ∧
    (groupCommit cfg inp st).1.parallelLaunched = false ∧
    (groupCommit cfg inp st).1.wbwiIngested = false ∧
    (groupCommit cfg inp st).1.published = none ∧
    (groupCommit cfg inp st).2.lastPublished = st.lastPublished ∧
    (groupCommit cfg inp st).1.status = Status.ioError m ∧
    (groupCommit cfg inp st).1.returned = Status.ioError m ∧
    (∀ s ∈ (groupCommit cfg inp st).1.memberStatuses,
      s = Status.ioError m) ∧
    (groupCommit cfg inp st).1.walMarkedNotSynced = inp.env.needWalSync := by
  have hio : commitIoS inp = Status.ioError m := by
    simp [commitIoS, hdw, hwal]
  have hsync : commitSyncStatus cfg inp = Status.ioError m ∧
      commitWalMarkedNotSynced cfg inp = inp.env.needWalSync := by
    unfold commitSyncStatus commitWalMarkedNotSynced statusAfterWalSync
    rw [hio]
    by_cases hns : inp.env.needWalSync <;> simp [hns, Status.isOk]
  have hpo : commitPreOut cfg inp st =
      { status := Status.ioError m, invoked := [], assigned := [] } := by
    unfold commitPreOut
    rw [hsync.1]
    simp [Status.isOk]
  have hmem : commitMemOut cfg inp st = (Status.ok, false, []) := by
    unfold commitMemOut
    rw [hpo]
    simp [Status.isOk]
  have hing : commitIngestOut cfg inp st = (Status.ioError m, false) := by
    cases h : inp.wbwiCount <;>
      simp [commitIngestOut, h, hpo, Status.isOk]
  have hpub : commitPublish cfg inp st = (none, commitAllocState cfg inp st) := by
    unfold commitPublish
    rw [hing]
    simp [Status.isOk]
  have halloc : (commitAllocState cfg inp st).lastPublished =
      st.lastPublished := by
    unfold commitAllocState
    by_cases htw : cfg.twoWriteQueues <;> simp [htw]
  have hpreok : inp.env.preprocessResult.isOk = true := by
    rw [hpre]; rfl
  unfold groupCommit
  rw [if_pos hpreok]
  refine ⟨by simp [hpo], by simp [hmem], by simp [hmem], by simp [hing],
    by simp [hpub], by simp [hpub, halloc], by simp [hing], ?_, ?_,
    by simp [hsync.2]⟩
  · simp [hing, Status.isOk]
  · intro s hs
    simp only [hing] at hs
    obtain ⟨w, _, hw⟩ := List.mem_map.mp hs
    rw [← hw]
    simp [memberFinalStatus, Status.isOk]

/-- Witness for C2 at a concrete one-writer group with a failing WAL. -/
theorem wal_failure_aborts_group_witness :
    commitInputWalFail.env.preprocessResult = Status.ok ∧
    commitInputWalFail.env.walAppendResult = Status.ioError "wal" ∧
    commitInputWalFail.disableWAL = false ∧
    (groupCommit cfgSingleQueue commitInputWalFail ⟨5, 5⟩).1.published = none ∧
    (groupCommit cfgSingleQueue commitInputWalFail ⟨5, 5⟩).2.lastPublished = 5 :=
  ⟨rfl, rfl, rfl,
   (wal_failure_aborts_group cfgSingleQueue commitInputWalFail ⟨5, 5⟩ "wal"
     rfl rfl rfl).2.2.2.2.1,
   (wal_failure_aborts_group cfgSingleQueue commitInputWalFail ⟨5, 5⟩ "wal"
     rfl rfl rfl).2.2.2.2.2.1⟩

/-! ## Claim C3: the reserved sequence increment -/

/-- C3: for every write group (with a successful preprocess step, so the
reservation is reached), the reserved increment equals: in per-batch mode the
sum of `batch_cnt` over writers whose validation callback passes; in per-key
mode the total key count over writers that pass validation and will write to
the memtable; plus, when a pre-built `WriteBatchWithIndex` is ingested, its
own operation count. -/
theorem seq_increment_characterization (cfg : EngineConfig)
    (inp : CommitInput) (st : DBState)
    (hpre : inp.env.preprocessResult = Status.ok) :
    (groupCommit cfg inp st).1.seqInc =
      (if cfg.seqPerBatch then
        ((inp.group.filter (fun w => w.checkCallback)).map
          (fun w => w.batchCnt)).sum
       else
        ((inp.group.filter
            (fun w => w.checkCallback && w.shouldWriteToMemtable)).map
          (fun w => w.batch.count)).sum) +
      inp.wbwiCount.getD 0 := by
  have hpreok : inp.env.preprocessResult.isOk = true := by
    rw [hpre]; rfl
  unfold groupCommit
  rw [if_pos hpreok]
  unfold commitSeqInc commitStats computeGroupStats
  cases h : inp.wbwiCount <;> by_cases hsb : cfg.seqPerBatch <;>
    simp [h, hsb, foldl_groupStatsStep_validBatches,
      foldl_groupStatsStep_totalCount]

/-- Witness for C3 at a concrete one-writer per-key group. -/
theorem seq_increment_characterization_witness :
    commitInputOk.env.preprocessResult = Status.ok ∧
    (groupCommit cfgSingleQueue commitInputOk ⟨5, 5⟩).1.seqInc =
      (if cfgSingleQueue.seqPerBatch then
        ((commitInputOk.group.filter (fun w => w.checkCallback)).map
          (fun w => w.batchCnt)).sum
       else
        ((commitInputOk.group.filter
            (fun w => w.checkCallback && w.shouldWriteToMemtable)).map
          (fun w => w.batch.count)).sum) +
      commitInputOk.wbwiCount.getD 0 :=
  ⟨rfl, seq_increment_characterization cfgSingleQueue commitInputOk ⟨5, 5⟩ rfl⟩

/-! ## Claim C4: conditions for the parallel memtable path -/

/-- C4 counterexample: with the concurrent-write flag set, a group containing
a WAL-only writer whose batch has a merge operation still takes
`LaunchParallelMemTableWriters` — the code checks `HasMerge` only for
validation-passing memtable-bound writers, so "no writer in the group
contains a merge operation" is not necessary for the parallel path. -/
theorem parallel_launched_despite_merge_writer :
    (groupCommit cfgConcurrent commitInputMergeParallel
      ⟨5, 5⟩).1.parallelLaunched = true ∧
    mergeWalOnlyWriter ∈ commitInputMergeParallel.group ∧
    mergeWalOnlyWriter.batch.hasMerge = true := by decide

/-- C4 (amended): the parallel path is taken only if the engine-wide
concurrent-write flag is set, the group has more than one writer, and no
writer that passes validation *and will write to the memtable* contains a
merge operation (merge batches of validation-failed or WAL-only writers are
not checked); contrapositively, if any such writer has a merge, application
is serial. -/
theorem parallel_launch_conditions (cfg : EngineConfig) (inp : CommitInput)
    (st : DBState)
    (h : (groupCommit cfg inp st).1.parallelLaunched = true) :
    cfg.allowConcurrentMemtableWrite = true ∧
    1 < inp.group.length ∧
    ∀ w ∈ inp.group, w.checkCallback = true →
      w.shouldWriteToMemtable = true → w.batch.hasMerge = false := by
  have hmem : (commitMemOut cfg inp st).2.1 = true := by
    by_cases hpre : inp.env.preprocessResult.isOk
    · unfold groupCommit at h
      rw [if_pos hpre] at h
      simpa using h
    · unfold groupCommit at h
      rw [if_neg hpre] at h
      simp at h
  have hpar : (commitStats cfg inp).parallel = true := by
    unfold commitMemOut at hmem
    by_cases h1 : (commitPreOut cfg inp st).status.isOk
    · rw [if_pos h1] at hmem
      by_cases h2 : (commitStats cfg inp).parallel
      · exact h2
      · rw [if_pos (by simp [h2])] at hmem
        simp at hmem
    · rw [if_neg h1] at hmem
      simp at hmem
  rw [commitStats, computeGroupStats, foldl_groupStatsStep_parallel] at hpar
  simp only [Bool.and_eq_true, decide_eq_true_eq, List.all_eq_true] at hpar
  obtain ⟨⟨hconc, hlen⟩, hall⟩ := hpar
  refine ⟨hconc, hlen, ?_⟩
  intro w hw hcc hsw
  have hw' := hall w hw
  simp [hcc, hsw] at hw'
  exact hw'

/-- Witness for C4 (amended) at a concrete parallel-eligible group. -/
theorem parallel_launch_conditions_witness :
    (groupCommit cfgConcurrent commitInputParallelOk
      ⟨5, 5⟩).1.parallelLaunched = true ∧
    cfgConcurrent.allowConcurrentMemtableWrite = true ∧
    1 < commitInputParallelOk.group.length ∧
    ∀ w ∈ commitInputParallelOk.group, w.checkCallback = true →
      w.shouldWriteToMemtable = true → w.batch.hasMerge = false :=
  ⟨by decide,
   parallel_launch_conditions cfgConcurrent commitInputParallelOk ⟨5, 5⟩
     (by decide)⟩

/-! ## Claims C5 and C6: the pre-release callback phase -/

/-- A failure reported by `firstPreReleaseFailure` is a non-OK status. -/
lemma firstPreReleaseFailure_isOk_false :
    ∀ (group : List Writer) (e : Status),
      firstPreReleaseFailure group = some e → e.isOk = false := by
  intro group
  induction group with
  | nil =>
    intro e h
    simp [firstPreReleaseFailure] at h
  | cons w t ih =>
    intro e h
    cases hb : (!w.callbackFailed && w.hasPreReleaseCallback &&
        !w.preReleaseResult.isOk) with
    | false =>
      rw [firstPreReleaseFailure, hb] at h
      exact ih e (by simpa using h)
    | true =>
      rw [firstPreReleaseFailure, hb] at h
      simp only [if_true] at h
      cases h
      simp only [Bool.and_eq_true, Bool.not_eq_true'] at hb
      exact hb.2

/-- When the WAL append succeeds and no WAL sync is requested, the
pre-release phase is entered with an OK status and runs the loop from the
reserved starting sequence. -/
lemma groupCommit_entry_ok (cfg : EngineConfig) (inp : CommitInput)
    (st : DBState)
    (hwal : inp.env.walAppendResult = Status.ok)
    (hns : inp.env.needWalSync = false) :
    commitPreOut cfg inp st =
      preReleaseLoop cfg.seqPerBatch inp.group 0 (commitLastSeq0 cfg st + 1) := by
  have hio : commitIoS inp = Status.ok := by
    unfold commitIoS
    split <;> simp [hwal]
  unfold commitPreOut commitSyncStatus statusAfterWalSync
  rw [hio, hns]
  simp [Status.isOk]

/-- When a pre-release callback fails, the group status becomes that error,
no memtable application takes place, the parallel path is not launched, the
WAL bytes are not scheduled for truncation, and nothing is published. -/
lemma groupCommit_preReleaseFail_core (cfg : EngineConfig) (inp : CommitInput)
    (st : DBState)
    (hpre : inp.env.preprocessResult = Status.ok)
    (hwal : inp.env.walAppendResult = Status.ok)
    (hns : inp.env.needWalSync = false) (e : Status)
    (hf : firstPreReleaseFailure inp.group = some e) :
    (groupCommit cfg inp st).1.status = e ∧
    (groupCommit cfg inp st).1.memtableApplied = [] ∧
    (groupCommit cfg inp st).1.parallelLaunched = false ∧
    (groupCommit cfg inp st).1.walTruncated = false ∧
    (groupCommit cfg inp st).1.published = none ∧
    (groupCommit cfg inp st).2.lastPublished = st.lastPublished := by
  have hentry := groupCommit_entry_ok cfg inp st hwal hns
  have heok : e.isOk = false := firstPreReleaseFailure_isOk_false inp.group e hf
  have hpostatus : (commitPreOut cfg inp st).status = e := by
    rw [hentry, preReleaseLoop_status, hf]
    rfl
  have hmem : commitMemOut cfg inp st = (Status.ok, false, []) := by
    unfold commitMemOut
    rw [hpostatus, heok]
    simp
  have hing : commitIngestOut cfg inp st = (e, false) := by
    cases h : inp.wbwiCount <;>
      simp [commitIngestOut, h, hpostatus, heok]
  have hpub : commitPublish cfg inp st = (none, commitAllocState cfg inp st) := by
    unfold commitPublish
    rw [hing]
    simp [heok]
  have halloc : (commitAllocState cfg inp st).lastPublished =
      st.lastPublished := by
    unfold commitAllocState
    by_cases htw : cfg.twoWriteQueues <;> simp [htw]
  have hpreok : inp.env.preprocessResult.isOk = true := by
    rw [hpre]; rfl
  unfold groupCommit
  rw [if_pos hpreok]
  exact ⟨by simp [hing], by simp [hmem], by simp [hmem],
    by simp [hmem, Status.isOk], by simp [hpub], by simp [hpub, halloc]⟩

/-- C5: for every write group reaching the pre-release phase with a
successful WAL append, the invoked pre-release callbacks are exactly those of
the eligible writers up to and including the first failing one, in strictly
increasing group order (each invoked exactly once); when none fails every
eligible writer's callback is invoked; and when one fails, its error becomes
the group status, no memtable application takes place for the entire group,
and the WAL bytes already appended are not reverted (no truncation is
scheduled and nothing is published). -/
theorem pre_release_callback_protocol (cfg : EngineConfig)
    (inp : CommitInput) (st : DBState)
    (hpre : inp.env.preprocessResult = Status.ok)
    (hwal : inp.env.walAppendResult = Status.ok)
    (hns : inp.env.needWalSync = false) :
    (groupCommit cfg inp st).1.preReleaseInvoked =
      invokedUpToFirstFailure inp.group 0 ∧
    (groupCommit cfg inp st).1.preReleaseInvoked.Pairwise (· < ·) ∧
    (firstPreReleaseFailure inp.group = none →
      (groupCommit cfg inp st).1.preReleaseInvoked =
        preReleaseEligible inp.group) ∧
    (∀ e, firstPreReleaseFailure inp.group = some e →
      (groupCommit cfg inp st).1.status = e ∧
      (groupCommit cfg inp st).1.memtableApplied = [] ∧
      (groupCommit cfg inp st).1.parallelLaunched = false ∧
      (groupCommit cfg inp st).1.walTruncated = false ∧
      (groupCommit cfg inp st).1.published = none) ∧
    (groupCommit cfg inp st).1.walAppended = !inp.disableWAL := by
  have hentry := groupCommit_entry_ok cfg inp st hwal hns
  have hpreok : inp.env.preprocessResult.isOk = true := by
    rw [hpre]; rfl
  have hinv : (groupCommit cfg inp st).1.preReleaseInvoked =
      invokedUpToFirstFailure inp.group 0 := by
    unfold groupCommit
    rw [if_pos hpreok]
    simp [hentry, preReleaseLoop_invoked]
  refine ⟨hinv, ?_, ?_, ?_, ?_⟩
  · rw [hinv]
    exact invokedUpToFirstFailure_pairwise inp.group 0
  · intro hnone
    rw [hinv, invokedUpToFirstFailure_eq_eligible inp.group 0 hnone]
    rfl
  · intro e he
    have hcore := groupCommit_preReleaseFail_core cfg inp st hpre hwal hns e he
    exact ⟨hcore.1, hcore.2.1, hcore.2.2.1, hcore.2.2.2.1, hcore.2.2.2.2.1⟩
  · unfold groupCommit
    rw [if_pos hpreok]

/-- Witness for C5 at a concrete group whose second pre-release callback
fails. -/
theorem pre_release_callback_protocol_witness :
    commitInputPreFail.env.preprocessResult = Status.ok ∧
    (groupCommit cfgSingleQueue commitInputPreFail
      ⟨5, 5⟩).1.preReleaseInvoked =
        invokedUpToFirstFailure commitInputPreFail.group 0 :=
  ⟨rfl, (pre_release_callback_protocol cfgSingleQueue commitInputPreFail
    ⟨5, 5⟩ rfl rfl rfl).1⟩

/-- C6 counterexample: in a group of three where only the second writer's
pre-release callback fails, no member's batch is inserted into the memtable
— application for the remaining members does *not* proceed — and nothing is
published: the counter stays at 5 instead of reflecting the group's reserved
range, refuting both parts of the claim. -/
theorem pre_release_failure_halts_whole_group :
    (groupCommit cfgSingleQueue commitInputPreFail
      ⟨5, 5⟩).1.memtableApplied = [] ∧
    (groupCommit cfgSingleQueue commitInputPreFail ⟨5, 5⟩).1.published =
      none ∧
    (groupCommit cfgSingleQueue commitInputPreFail
      ⟨5, 5⟩).1.preReleaseInvoked = [0, 1] ∧
    (groupCommit cfgSingleQueue commitInputPreFail ⟨5, 5⟩).1.status =
      Status.busy "cb" ∧
    (groupCommit cfgSingleQueue commitInputPreFail ⟨5, 5⟩).2.lastPublished =
      5 := by decide

/-- C6 (amended): when a writer's pre-release callback fails, that writer's
batch is never inserted into the memtable — but neither is any other
member's (the rest of the group does not proceed), and `SetLastSequence` is
not called: the published counter is unchanged rather than reflecting the
group's reserved range. -/
theorem pre_release_failure_skips_all_memtable_and_publish
    (cfg : EngineConfig) (inp : CommitInput) (st : DBState)
    (hpre : inp.env.preprocessResult = Status.ok)
    (hwal : inp.env.walAppendResult = Status.ok)
    (hns : inp.env.needWalSync = false) (e : Status)
    (hf : firstPreReleaseFailure inp.group = some e) :
    (groupCommit cfg inp st).1.memtableApplied = [] ∧
    (groupCommit cfg inp st).1.published = none ∧
    (groupCommit cfg inp st).2.lastPublished = st.lastPublished ∧
    (groupCommit cfg inp st).1.returned = e := by
  have hcore := groupCommit_preReleaseFail_core cfg inp st hpre hwal hns e hf
  refine ⟨hcore.2.1, hcore.2.2.2.2.1, hcore.2.2.2.2.2, ?_⟩
  have heok : e.isOk = false := firstPreReleaseFailure_isOk_false inp.group e hf
  have hentry := groupCommit_entry_ok cfg inp st hwal hns
  have hpostatus : (commitPreOut cfg inp st).status = e := by
    rw [hentry, preReleaseLoop_status, hf]
    rfl
  have hing : commitIngestOut cfg inp st = (e, false) := by
    have hmem : commitMemOut cfg inp st = (Status.ok, false, []) := by
      unfold commitMemOut
      rw [hpostatus, heok]
      simp
    cases h : inp.wbwiCount <;>
      simp [commitIngestOut, h, hpostatus, heok]
  have hpreok : inp.env.preprocessResult.isOk = true := by
    rw [hpre]; rfl
  unfold groupCommit
  rw [if_pos hpreok]
  simp [hing, heok]

/-- Witness for C6 (amended) at the concrete three-writer group. -/
theorem pre_release_failure_skips_all_memtable_and_publish_witness :
    firstPreReleaseFailure commitInputPreFail.group = some (Status.busy "cb") ∧
    (groupCommit cfgSingleQueue commitInputPreFail
      ⟨5, 5⟩).1.memtableApplied = [] ∧
    (groupCommit cfgSingleQueue commitInputPreFail ⟨5, 5⟩).2.lastPublished =
      5 :=
  ⟨by decide,
   (pre_release_failure_skips_all_memtable_and_publish cfgSingleQueue
     commitInputPreFail ⟨5, 5⟩ rfl rfl rfl (Status.busy "cb") (by decide)).1,
   (pre_release_failure_skips_all_memtable_and_publish cfgSingleQueue
     commitInputPreFail ⟨5, 5⟩ rfl rfl rfl (Status.busy "cb")
     (by decide)).2.2.1⟩

/-! ## Claim C7: contradictory options are rejected before joining -/

/-- C7: every call whose options combine `sync` with `disableWAL` leaves the
validation prefix through an early `InvalidArgument` return — synchronously,
before the writer joins the batch-group queue (no path-dispatch outcome is
reached) and without the low-priority throttle, the one state-touching call
before `Join`, running. -/
theorem sync_disableWAL_rejected_before_join (cfg : PrecheckConfig)
    (opts : WriteOptionsM) (call : PrecheckCall)
    (hs : opts.sync = true) (hd : opts.disableWAL = true) :
    (∃ m, (writeImplPrecheck cfg opts call).outcome =
      PrecheckOutcome.earlyReturn (Status.invalidArgument m)) ∧
    (writeImplPrecheck cfg opts call).throttleChecked = false := by
  unfold writeImplPrecheck
  by_cases h1 : call.batchIsNull = true
  · rw [if_pos h1]
    exact ⟨⟨_, rfl⟩, rfl⟩
  · rw [if_neg h1]
    by_cases h2 : (!call.disableMemtable && call.timestampsUpdateNeeded) = true
    · rw [if_pos h2]
      exact ⟨⟨_, rfl⟩, rfl⟩
    · rw [if_neg h2]
      by_cases h3 : opts.rateLimiterPriority ≠ RateLimiterPrio.ioTotal ∧
          opts.rateLimiterPriority ≠ RateLimiterPrio.ioUser
      · rw [if_pos h3]
        exact ⟨⟨_, rfl⟩, rfl⟩
      · rw [if_neg h3]
        by_cases h4 : opts.rateLimiterPriority ≠ RateLimiterPrio.ioTotal ∧
            (opts.disableWAL = true ∨ cfg.manualWalFlush = true)
        · rw [if_pos h4]
          exact ⟨⟨_, rfl⟩, rfl⟩
        · rw [if_neg h4]
          by_cases h5 : opts.protectionBytesPerKey ≠ 0 ∧
              opts.protectionBytesPerKey ≠ 8
          · rw [if_pos h5]
            exact ⟨⟨_, rfl⟩, rfl⟩
          · rw [if_neg h5]
            by_cases h6 : opts.disableWAL = true ∧
                0 < cfg.recycleLogFileNum ∧
                ¬(cfg.twoWriteQueues = true ∧ call.disableMemtable = true)
            · rw [if_pos h6]
              exact ⟨⟨_, rfl⟩, rfl⟩
            · rw [if_neg h6, if_pos ⟨hs, hd⟩]
              exact ⟨⟨_, rfl⟩, rfl⟩

/-- Witness for C7 at a concrete contradictory call. -/
theorem sync_disableWAL_rejected_before_join_witness :
    ({ sync := true, disableWAL := true, lowPri := false
       rateLimiterPriority := RateLimiterPrio.ioTotal
       protectionBytesPerKey := 0 } : WriteOptionsM).sync = true ∧
    (∃ m, (writeImplPrecheck
      { twoWriteQueues := false, seqPerBatch := false, manualWalFlush := false
        enablePipelinedWrite := false, unorderedWrite := false
        recycleLogFileNum := 0, rowCache := false, tracerPresent := false
        tracerWriteOrderPreserved := false }
      { sync := true, disableWAL := true, lowPri := false
        rateLimiterPriority := RateLimiterPrio.ioTotal
        protectionBytesPerKey := 0 }
      { batchIsNull := false, timestampsUpdateNeeded := false
        batchHasDeleteRange := false, disableMemtable := false
        hasPostMemtableCallback := false, wbwiPresent := false
        wbwiOverwriteKey := true, throttleResult := Status.ok }).outcome =
      PrecheckOutcome.earlyReturn (Status.invalidArgument m)) :=
  ⟨rfl,
   (sync_disableWAL_rejected_before_join _ _ _ rfl rfl).1⟩

end RocksDBModel
